import Mathlib

/-!
Verification of the proxy error taxonomy and the datagram relay handle
(`apps/src/proxy.rs`).  The Rust code is shallowly embedded: the `Error`
enum and its pure methods become Lean definitions; the socket system
calls performed by the `Http3DgramProxy` constructors and `send`/`recv`
are modelled by an explicit environment record (`NetEnv`) holding the
outcome of each external operation, so that each function of the source
becomes a pure Lean function of that environment.
-/

namespace ProxyCore

/-- The kind carried by a `std::io::Error`; only the kinds the source
inspects are distinguished, every other kind is `otherKind`. -/
inductive IOErrorKind where
  | wouldBlock
  | timedOut
  | connRefusedKind
  | otherKind
  deriving DecidableEq, Repr

/-- A `std::io::Error`: its kind plus an opaque payload standing for the
rest of the error value (message, os code, ...). -/
structure IOError where
  kind : IOErrorKind
  code : Nat
  deriving DecidableEq, Repr

/-- A `std::net::AddrParseError`; opaque, with a payload so that distinct
error values exist. -/
structure AddrParseError where
  detail : Nat
  deriving DecidableEq, Repr

/-- A resolved `std::net::SocketAddr` (ip rendered as an opaque numeral). -/
structure SocketAddr where
  ip : Nat
  port : Nat
  deriving DecidableEq, Repr

/-- A bound UDP socket (`mio::net::UdpSocket`), identified by its descriptor. -/
structure Socket where
  fd : Nat
  deriving DecidableEq, Repr

/-- The RFC 9209 proxy error enum (`Error` in `proxy.rs`, lines 26-58).
`HttpRequestError` and `ProxyInternalResponse` carry a `u16` status,
modelled as a `Nat` (the u16 range is imposed where a claim needs it). -/
inductive Error where
  | DnsTimeout
  | DnsError
  | DestinationNotFound
  | DestinationUnavailable
  | DestinationIpProhibited
  | DestinationIpUnroutable
  | ConnectionRefused
  | ConnectionTerminated
  | ConnectionReadTimeout
  | ConnectionWriteTimeout
  | ConnectionLimitReached
  | TlsProtocolError
  | TlsCertificateError
  | TlsAlertReceived
  | HttpRequestError (status_code : Nat)
  | HttpRequestDenied
  | HttpResponseIncomplete
  | HttpResponseHeaderSectionSize
  | HttpResponseHeaderSize
  | HttpResponseBodySize
  | HttpResponseTrailerSectionSize
  | HttpResponseTrailerSize
  | HttpResponseTransferCoding
  | HttpResponseContentCoding
  | HttpResponseTimeout
  | HttpUpgradeFailed
  | HttpProtocolError
  | ProxyInternalResponse (status_code : Nat)
  | ProxyInternalError
  | ProxyConfigurationError
  | ProxyLoopDetected
  deriving DecidableEq, Repr

/-- `Error::to_status_code` (`proxy.rs` lines 61-95), transcribed match
arm by match arm. -/
def Error.to_status_code : Error → Nat
  | .DnsTimeout => 504
  | .DnsError => 502
  | .DestinationNotFound => 500
  | .DestinationUnavailable => 503
  | .DestinationIpProhibited => 502
  | .DestinationIpUnroutable => 502
  | .ConnectionRefused => 502
  | .ConnectionTerminated => 502
  | .ConnectionReadTimeout => 504
  | .ConnectionWriteTimeout => 504
  | .ConnectionLimitReached => 503
  | .TlsProtocolError => 502
  | .TlsCertificateError => 502
  | .TlsAlertReceived => 502
  | .HttpRequestError status_code => status_code
  | .HttpRequestDenied => 403
  | .HttpResponseIncomplete => 502
  | .HttpResponseHeaderSectionSize => 502
  | .HttpResponseHeaderSize => 502
  | .HttpResponseBodySize => 502
  | .HttpResponseTrailerSectionSize => 502
  | .HttpResponseTrailerSize => 502
  | .HttpResponseTransferCoding => 502
  | .HttpResponseContentCoding => 502
  | .HttpResponseTimeout => 504
  | .HttpUpgradeFailed => 502
  | .HttpProtocolError => 502
  | .ProxyInternalResponse status_code => status_code
  | .ProxyInternalError => 500
  | .ProxyConfigurationError => 500
  | .ProxyLoopDetected => 502

/-- Whether the variant carries a numeric payload (only `HttpRequestError`
and `ProxyInternalResponse` do, per the enum declaration). -/
def Error.isPayload : Error → Bool
  | .HttpRequestError _ => true
  | .ProxyInternalResponse _ => true
  | _ => false

/-- The variants of the enum declaration that carry no payload, in
declaration order (`proxy.rs` lines 27-57 minus the two payload variants). -/
def nonPayloadVariants : List Error :=
  [.DnsTimeout, .DnsError, .DestinationNotFound, .DestinationUnavailable,
   .DestinationIpProhibited, .DestinationIpUnroutable, .ConnectionRefused,
   .ConnectionTerminated, .ConnectionReadTimeout, .ConnectionWriteTimeout,
   .ConnectionLimitReached, .TlsProtocolError, .TlsCertificateError,
   .TlsAlertReceived, .HttpRequestDenied, .HttpResponseIncomplete,
   .HttpResponseHeaderSectionSize, .HttpResponseHeaderSize,
   .HttpResponseBodySize, .HttpResponseTrailerSectionSize,
   .HttpResponseTrailerSize, .HttpResponseTransferCoding,
   .HttpResponseContentCoding, .HttpResponseTimeout, .HttpUpgradeFailed,
   .HttpProtocolError, .ProxyInternalError, .ProxyConfigurationError,
   .ProxyLoopDetected]

/-- The variant's tag name as spelled in the enum declaration. -/
def Error.tagName : Error → String
  | .DnsTimeout => "DnsTimeout"
  | .DnsError => "DnsError"
  | .DestinationNotFound => "DestinationNotFound"
  | .DestinationUnavailable => "DestinationUnavailable"
  | .DestinationIpProhibited => "DestinationIpProhibited"
  | .DestinationIpUnroutable => "DestinationIpUnroutable"
  | .ConnectionRefused => "ConnectionRefused"
  | .ConnectionTerminated => "ConnectionTerminated"
  | .ConnectionReadTimeout => "ConnectionReadTimeout"
  | .ConnectionWriteTimeout => "ConnectionWriteTimeout"
  | .ConnectionLimitReached => "ConnectionLimitReached"
  | .TlsProtocolError => "TlsProtocolError"
  | .TlsCertificateError => "TlsCertificateError"
  | .TlsAlertReceived => "TlsAlertReceived"
  | .HttpRequestError _ => "HttpRequestError"
  | .HttpRequestDenied => "HttpRequestDenied"
  | .HttpResponseIncomplete => "HttpResponseIncomplete"
  | .HttpResponseHeaderSectionSize => "HttpResponseHeaderSectionSize"
  | .HttpResponseHeaderSize => "HttpResponseHeaderSize"
  | .HttpResponseBodySize => "HttpResponseBodySize"
  | .HttpResponseTrailerSectionSize => "HttpResponseTrailerSectionSize"
  | .HttpResponseTrailerSize => "HttpResponseTrailerSize"
  | .HttpResponseTransferCoding => "HttpResponseTransferCoding"
  | .HttpResponseContentCoding => "HttpResponseContentCoding"
  | .HttpResponseTimeout => "HttpResponseTimeout"
  | .HttpUpgradeFailed => "HttpUpgradeFailed"
  | .HttpProtocolError => "HttpProtocolError"
  | .ProxyInternalResponse _ => "ProxyInternalResponse"
  | .ProxyInternalError => "ProxyInternalError"
  | .ProxyConfigurationError => "ProxyConfigurationError"
  | .ProxyLoopDetected => "ProxyLoopDetected"

/-- The `Display` impl (`proxy.rs` lines 98-102) writes `{self:?}`, i.e.
the derived `Debug` rendering: the tag name alone for payload-free
variants, and `Tag(status)` for the two payload variants. -/
def Error.display (e : Error) : String :=
  match e with
  | .HttpRequestError s => "HttpRequestError(" ++ toString s ++ ")"
  | .ProxyInternalResponse s => "ProxyInternalResponse(" ++ toString s ++ ")"
  | e => e.tagName

/-- `impl From<std::io::Error> for Error` (`proxy.rs` lines 104-109): logs
the cause (logging is an external collaborator) and yields
`ProxyInternalError` unconditionally. -/
def Error.fromIOError (_ : IOError) : Error :=
  Error.ProxyInternalError

/-- `impl From<std::net::AddrParseError> for Error` (`proxy.rs` lines
111-116): logs the cause and yields `ProxyInternalError` unconditionally. -/
def Error.fromAddrParseError (_ : AddrParseError) : Error :=
  Error.ProxyInternalError

/-- The outcomes of the external operations the relay-handle code invokes
(OS resolver and socket calls).  Each constructor or method of
`Http3DgramProxy` is embedded as a pure function of one such record. -/
structure NetEnv where
  parseBindAddr : Except AddrParseError SocketAddr
  bind : SocketAddr → Except IOError Socket
  connect : Socket → SocketAddr → Except IOError Unit
  resolve : String → Except IOError (List SocketAddr)
  sockSend : Socket → List Nat → Except IOError Nat
  sockRecv : Socket → List Nat → Except IOError (Nat × List Nat)

/-- The relay handle `Http3DgramProxy` (`proxy.rs` lines 119-123). -/
structure Http3DgramProxy where
  socket : Socket
  target : SocketAddr
  context_id : Nat
  deriving DecidableEq, Repr

/-- The value of `cs.foldl` accumulating decimal digits, as
`str::parse::<u16>` does over the digit characters. -/
def digitsToNat (cs : List Char) : Nat :=
  cs.foldl (fun acc c => acc * 10 + (c.toNat - 48)) 0

/-- Rust's `str::parse::<u16>`: an optional leading plus sign, then one or
more ASCII digits, with the value required to fit in 16 bits; anything
else (empty input, a sign alone, non-digits, overflow) fails. -/
def parseU16 (s : String) : Option Nat :=
  let cs := match s.data with
    | '+' :: rest => rest
    | cs => cs
  if cs ≠ [] ∧ cs.all (fun c => c.isDigit) then
    let n := digitsToNat cs
    if n ≤ 65535 then some n else none
  else none

/-- `Http3DgramProxy::with_sock_addr` (`proxy.rs` lines 140-157): parse
the fixed bind address, bind, then connect; a connect failure of any
kind, would-block included (the would-block test at line 145 only emits a
trace record before falling through), returns `ConnectionRefused`. -/
def with_sock_addr (env : NetEnv) (target : SocketAddr) :
    Except Error Http3DgramProxy :=
  match env.parseBindAddr with
  | .error e => .error (Error.fromAddrParseError e)
  | .ok bindAddr =>
    match env.bind bindAddr with
    | .error e => .error (Error.fromIOError e)
    | .ok socket =>
      match env.connect socket target with
      | .error _e =>
        -- when _e.kind = wouldBlock a trace record is emitted (external
        -- logging); control then reaches the same failure return
        .error Error.ConnectionRefused
      | .ok _ =>
        -- Context ID fixed to 0 right now.
        .ok { socket := socket, target := target, context_id := 0 }

/-- `Http3DgramProxy::with_host_port` (`proxy.rs` lines 126-134): parse
the port (failure mapped to `DestinationNotFound`), resolve
`"{host}:{port}"` (an io failure lifted through `From<std::io::Error>`,
i.e. `Error.fromIOError`, by the `?` operator), take the first address
(`DnsError` if there is none), and delegate to `with_sock_addr`. -/
def with_host_port (env : NetEnv) (host : String) (port : String) :
    Except Error Http3DgramProxy :=
  match parseU16 port with
  | none => .error Error.DestinationNotFound
  | some p =>
    match env.resolve (host ++ ":" ++ toString p) with
    | .error e => .error (Error.fromIOError e)
    | .ok addrs =>
      match addrs.head? with
      | none => .error Error.DnsError
      | some a => with_sock_addr env a

/-- `Http3DgramProxy::with_addr_port` (`proxy.rs` lines 136-138):
assemble the socket address and delegate to `with_sock_addr`. -/
def with_addr_port (env : NetEnv) (addr : Nat) (port : Nat) :
    Except Error Http3DgramProxy :=
  with_sock_addr env { ip := addr, port := port }

/-- `Http3DgramProxy::send` (`proxy.rs` lines 159-161): forward the
buffer on the connected socket.  The handle is returned alongside the io
result to record the state after the call (Rust takes `&self`; the body
writes no field). -/
def Http3DgramProxy.send (self : Http3DgramProxy) (env : NetEnv)
    (buf : List Nat) : Except IOError Nat × Http3DgramProxy :=
  (env.sockSend self.socket buf, self)

/-- `Http3DgramProxy::recv` (`proxy.rs` lines 163-165): read the next
datagram into the buffer; result is bytes read plus the filled buffer. -/
def Http3DgramProxy.recv (self : Http3DgramProxy) (env : NetEnv)
    (buf : List Nat) : Except IOError (Nat × List Nat) × Http3DgramProxy :=
  (env.sockRecv self.socket buf, self)

/-- The result of parsing the constant bind string `"0.0.0.0:0"`:
the IPv4 wildcard, ephemeral port. -/
def bindAddr0 : SocketAddr := { ip := 0, port := 0 }

/-- A sample destination address for concrete evaluations. -/
def addrA : SocketAddr := { ip := 2130706433236, port := 443 }

/-- A sample bound socket. -/
def sock1 : Socket := { fd := 3 }

/-- An environment in which every external operation succeeds. -/
def envOk : NetEnv where
  parseBindAddr := .ok bindAddr0
  bind := fun _ => .ok sock1
  connect := fun _ _ => .ok ()
  resolve := fun _ => .ok [addrA]
  sockSend := fun _ buf => .ok buf.length
  sockRecv := fun _ buf => .ok (buf.length, buf)

/-- An environment whose connect attempt reports would-block. -/
def envWouldBlock : NetEnv where
  parseBindAddr := .ok bindAddr0
  bind := fun _ => .ok sock1
  connect := fun _ _ => .error { kind := .wouldBlock, code := 11 }
  resolve := fun _ => .ok [addrA]
  sockSend := fun _ buf => .ok buf.length
  sockRecv := fun _ buf => .ok (buf.length, buf)

/-- An environment whose resolver reports an io failure. -/
def envResolveFails : NetEnv where
  parseBindAddr := .ok bindAddr0
  bind := fun _ => .ok sock1
  connect := fun _ _ => .ok ()
  resolve := fun _ => .error { kind := .otherKind, code := 7 }
  sockSend := fun _ buf => .ok buf.length
  sockRecv := fun _ buf => .ok (buf.length, buf)

/-- An environment whose resolver succeeds with no address. -/
def envResolveEmpty : NetEnv where
  parseBindAddr := .ok bindAddr0
  bind := fun _ => .ok sock1
  connect := fun _ _ => .ok ()
  resolve := fun _ => .ok []
  sockSend := fun _ buf => .ok buf.length
  sockRecv := fun _ buf => .ok (buf.length, buf)

/-- An environment whose local bind fails. -/
def envBindFails : NetEnv where
  parseBindAddr := .ok bindAddr0
  bind := fun _ => .error { kind := .otherKind, code := 13 }
  connect := fun _ _ => .ok ()
  resolve := fun _ => .ok [addrA]
  sockSend := fun _ buf => .ok buf.length
  sockRecv := fun _ buf => .ok (buf.length, buf)

/-- The only `Error` variants any constructor returns. -/
def constructorErrorRange : List Error :=
  [.DestinationNotFound, .DnsError, .ProxyInternalError, .ConnectionRefused]

/-- Every payload-free variant appears in `nonPayloadVariants`. -/
theorem nonPayload_mem (e : Error) :
    e.isPayload = true ∨ e ∈ nonPayloadVariants := by
  cases e
  all_goals first
    | exact Or.inl rfl
    | exact Or.inr (by decide)

/-- Any error out of `with_sock_addr` is the io/parse lift
(`ProxyInternalError`) or the connect failure (`ConnectionRefused`). -/
theorem with_sock_addr_error_mem (env : NetEnv) (target : SocketAddr)
    (e : Error) (h : with_sock_addr env target = .error e) :
    e = Error.ProxyInternalError ∨ e = Error.ConnectionRefused := by
  unfold with_sock_addr at h
  split at h
  · exact Or.inl (by injection h with h; exact h.symm)
  · split at h
    · exact Or.inl (by injection h with h; exact h.symm)
    · split at h
      · exact Or.inr (by injection h with h; exact h.symm)
      · exact absurd h (by simp)

/-- C1.  The claim presupposes 30 payload-free variants; the enum
declaration has exactly 29 of them (31 variants, two carrying a status),
so the count 30 is refuted. -/
theorem C1_nonpayload_count_counterexample :
    nonPayloadVariants.Nodup ∧ nonPayloadVariants.length = 29 ∧
      ¬ nonPayloadVariants.length = 30 := by
  refine ⟨by decide, by decide, by decide⟩

/-- C1 (amended: 29 payload-free variants, not 30).  The payload-free
variants are exactly the 29 listed ones and `to_status_code` gives each
the fixed table value of spec section 4.1; the Lean function is total by
construction, mirroring the total Rust match with no fallback arm. -/
theorem C1_status_table :
    (∀ e : Error, e.isPayload = true ∨ e ∈ nonPayloadVariants) ∧
    nonPayloadVariants.length = 29 ∧
    Error.to_status_code .DnsTimeout = 504 ∧
    Error.to_status_code .DnsError = 502 ∧
    Error.to_status_code .DestinationNotFound = 500 ∧
    Error.to_status_code .DestinationUnavailable = 503 ∧
    Error.to_status_code .DestinationIpProhibited = 502 ∧
    Error.to_status_code .DestinationIpUnroutable = 502 ∧
    Error.to_status_code .ConnectionRefused = 502 ∧
    Error.to_status_code .ConnectionTerminated = 502 ∧
    Error.to_status_code .ConnectionReadTimeout = 504 ∧
    Error.to_status_code .ConnectionWriteTimeout = 504 ∧
    Error.to_status_code .ConnectionLimitReached = 503 ∧
    Error.to_status_code .TlsProtocolError = 502 ∧
    Error.to_status_code .TlsCertificateError = 502 ∧
    Error.to_status_code .TlsAlertReceived = 502 ∧
    Error.to_status_code .HttpRequestDenied = 403 ∧
    Error.to_status_code .HttpResponseIncomplete = 502 ∧
    Error.to_status_code .HttpResponseHeaderSectionSize = 502 ∧
    Error.to_status_code .HttpResponseHeaderSize = 502 ∧
    Error.to_status_code .HttpResponseBodySize = 502 ∧
    Error.to_status_code .HttpResponseTrailerSectionSize = 502 ∧
    Error.to_status_code .HttpResponseTrailerSize = 502 ∧
    Error.to_status_code .HttpResponseTransferCoding = 502 ∧
    Error.to_status_code .HttpResponseContentCoding = 502 ∧
    Error.to_status_code .HttpResponseTimeout = 504 ∧
    Error.to_status_code .HttpUpgradeFailed = 502 ∧
    Error.to_status_code .HttpProtocolError = 502 ∧
    Error.to_status_code .ProxyInternalError = 500 ∧
    Error.to_status_code .ProxyConfigurationError = 500 ∧
    Error.to_status_code .ProxyLoopDetected = 502 := by
  exact ⟨nonPayload_mem, by decide, rfl, rfl, rfl, rfl, rfl, rfl, rfl, rfl,
    rfl, rfl, rfl, rfl, rfl, rfl, rfl, rfl, rfl, rfl, rfl, rfl, rfl, rfl,
    rfl, rfl, rfl, rfl, rfl, rfl, rfl⟩

/-- C2.  The two payload variants return the carried status unchanged for
every value in the u16 range; no validation is applied. -/
theorem C2_payload_status_identity (s : Nat) (_h : s ≤ 65535) :
    Error.to_status_code (.HttpRequestError s) = s ∧
    Error.to_status_code (.ProxyInternalResponse s) = s :=
  ⟨rfl, rfl⟩

/-- C2, instantiated at the largest u16 value (not a legal HTTP status). -/
theorem C2_payload_status_identity_witness :
    Error.to_status_code (.HttpRequestError 65535) = 65535 ∧
    Error.to_status_code (.ProxyInternalResponse 65535) = 65535 :=
  C2_payload_status_identity 65535 (by decide)

/-- C6.  Both lifting conversions yield exactly `ProxyInternalError` on
every input, and are constant (hence lossy: the original cause is not
recoverable from the taxonomy value). -/
theorem C6_lossy_lift (e e2 : IOError) (a a2 : AddrParseError) :
    Error.fromIOError e = Error.ProxyInternalError ∧
    Error.fromAddrParseError a = Error.ProxyInternalError ∧
    Error.fromIOError e = Error.fromIOError e2 ∧
    Error.fromAddrParseError a = Error.fromAddrParseError a2 :=
  ⟨rfl, rfl, rfl, rfl⟩

/-- C9.  `send` and `recv` return the handle with `target` and
`context_id` untouched, whatever the environment makes the io call
return (success or failure alike). -/
theorem C9_send_recv_frame (self : Http3DgramProxy) (env : NetEnv)
    (buf bufr : List Nat) :
    ((self.send env buf).2.target = self.target ∧
     (self.send env buf).2.context_id = self.context_id) ∧
    ((self.recv env bufr).2.target = self.target ∧
     (self.recv env bufr).2.context_id = self.context_id) :=
  ⟨⟨rfl, rfl⟩, ⟨rfl, rfl⟩⟩

/-- C3.  An environment whose connect attempt would-block makes the
constructor fail with `ConnectionRefused` instead of returning a handle:
the would-block test only precedes the unconditional failure return. -/
theorem C3_would_block_counterexample :
    envWouldBlock.connect sock1 addrA =
      .error { kind := .wouldBlock, code := 11 } ∧
    with_sock_addr envWouldBlock addrA = .error Error.ConnectionRefused :=
  ⟨rfl, rfl⟩

/-- C3 (amended: would-block is logged but still fails).  Every connect
failure, a would-block report included, makes `with_sock_addr` return
`ConnectionRefused`. -/
theorem C3_connect_failure_refused (env : NetEnv)
    (target bindAddr : SocketAddr) (socket : Socket) (e : IOError)
    (hp : env.parseBindAddr = .ok bindAddr)
    (hb : env.bind bindAddr = .ok socket)
    (hc : env.connect socket target = .error e) :
    with_sock_addr env target = .error Error.ConnectionRefused := by
  simp only [with_sock_addr, hp, hb, hc]

/-- C3 amended theorem at the would-block environment. -/
theorem C3_connect_failure_refused_witness :
    with_sock_addr envWouldBlock addrA = .error Error.ConnectionRefused :=
  C3_connect_failure_refused envWouldBlock addrA bindAddr0 sock1
    { kind := .wouldBlock, code := 11 } rfl rfl rfl

/-- C4.  A resolver-level io failure is not collapsed into `DnsError`:
the `?` on `to_socket_addrs` lifts it through `From<std::io::Error>` to
`ProxyInternalError`. -/
theorem C4_resolver_io_counterexample :
    envResolveFails.resolve "example.com:443" =
      .error { kind := .otherKind, code := 7 } ∧
    with_host_port envResolveFails "example.com" "443" =
      .error Error.ProxyInternalError ∧
    Error.ProxyInternalError ≠ Error.DnsError :=
  ⟨rfl, rfl, by decide⟩

/-- C4 (amended: the two cases are distinguished).  With the port parsed,
a resolution that succeeds with no address gives `DnsError`, while a
resolver io failure gives `ProxyInternalError` via the generic lift. -/
theorem C4_resolution_error_split (env : NetEnv) (host port : String)
    (p : Nat) (hp : parseU16 port = some p) :
    (env.resolve (host ++ ":" ++ toString p) = .ok [] →
      with_host_port env host port = .error Error.DnsError) ∧
    (∀ e, env.resolve (host ++ ":" ++ toString p) = .error e →
      with_host_port env host port = .error Error.ProxyInternalError) := by
  constructor
  · intro hres
    simp only [with_host_port, hp, hres, List.head?]
  · intro e hres
    simp only [with_host_port, hp, hres, Error.fromIOError]

/-- C4 amended theorem at a no-address environment and at an io-failure
environment. -/
theorem C4_resolution_error_split_witness :
    with_host_port envResolveEmpty "example.com" "443" =
      .error Error.DnsError ∧
    with_host_port envResolveFails "example.com" "443" =
      .error Error.ProxyInternalError :=
  ⟨(C4_resolution_error_split envResolveEmpty "example.com" "443" 443
      (by decide)).1 rfl,
   (C4_resolution_error_split envResolveFails "example.com" "443" 443
      (by decide)).2 { kind := .otherKind, code := 7 } rfl⟩

/-- C5.  A port string that does not parse as a u16 fails with
`DestinationNotFound` for every environment and host, so in particular
without consulting the resolver. -/
theorem C5_malformed_port (env : NetEnv) (host port : String)
    (h : parseU16 port = none) :
    with_host_port env host port = .error Error.DestinationNotFound := by
  simp only [with_host_port, h]

/-- C5 at a non-numeric port and at an out-of-range numeral. -/
theorem C5_malformed_port_witness :
    with_host_port envOk "anyhost" "abc" =
      .error Error.DestinationNotFound ∧
    with_host_port envResolveFails "other.example" "70000" =
      .error Error.DestinationNotFound :=
  ⟨C5_malformed_port envOk "anyhost" "abc" (by decide),
   C5_malformed_port envResolveFails "other.example" "70000" (by decide)⟩

/-- C7.  Whenever `with_sock_addr` succeeds, the handle carries
`context_id = 0` and the destination given to the constructor. -/
theorem C7_handle_identity (env : NetEnv) (target : SocketAddr)
    (handle : Http3DgramProxy)
    (hok : with_sock_addr env target = .ok handle) :
    handle.context_id = 0 ∧ handle.target = target := by
  unfold with_sock_addr at hok
  split at hok
  · exact absurd hok (by simp)
  · split at hok
    · exact absurd hok (by simp)
    · split at hok
      · exact absurd hok (by simp)
      · injection hok with h
        exact ⟨by rw [← h], by rw [← h]⟩

/-- C7 at the all-success environment. -/
theorem C7_handle_identity_witness :
    ({ socket := sock1, target := addrA, context_id := 0 } :
      Http3DgramProxy).context_id = 0 ∧
    ({ socket := sock1, target := addrA, context_id := 0 } :
      Http3DgramProxy).target = addrA :=
  C7_handle_identity envOk addrA
    { socket := sock1, target := addrA, context_id := 0 } rfl

/-- A string whose second appended part has nonempty data is nonempty. -/
theorem append_ne_empty_left (a b : String) (h : a.data ≠ []) :
    a ++ b ≠ "" := by
  intro hc
  apply h
  have hd : (a ++ b).data = ([] : List Char) := by rw [hc]
  rw [String.data_append] at hd
  exact (List.append_eq_nil.mp hd).1

/-- C8.  The rendering is nonempty for every variant, equals the tag name
for payload-free variants, and for the two payload variants the decimal
digits of the carried status occur inside the rendering. -/
theorem C8_display_contract (e : Error) (s : Nat) :
    Error.display e ≠ "" ∧
    (e.isPayload = false → Error.display e = e.tagName) ∧
    List.IsInfix (toString s).data
      (Error.display (.HttpRequestError s)).data ∧
    List.IsInfix (toString s).data
      (Error.display (.ProxyInternalResponse s)).data := by
  refine ⟨?_, ?_, ?_, ?_⟩
  · cases e
    case HttpRequestError t =>
      exact append_ne_empty_left "HttpRequestError(" (toString t ++ ")")
        (by decide)
    case ProxyInternalResponse t =>
      exact append_ne_empty_left "ProxyInternalResponse(" (toString t ++ ")")
        (by decide)
    all_goals decide
  · cases e
    case HttpRequestError t => intro hp; exact Bool.noConfusion hp
    case ProxyInternalResponse t => intro hp; exact Bool.noConfusion hp
    all_goals intro _hp; rfl
  · exact ⟨"HttpRequestError(".data, ")".data, rfl⟩
  · exact ⟨"ProxyInternalResponse(".data, ")".data, rfl⟩

/-- C8 at a payload-free variant and at status 418. -/
theorem C8_display_contract_witness :
    Error.display Error.DnsTimeout ≠ "" ∧
    Error.display Error.DnsTimeout = Error.tagName Error.DnsTimeout ∧
    List.IsInfix (toString 418).data
      (Error.display (.HttpRequestError 418)).data ∧
    List.IsInfix (toString 418).data
      (Error.display (.ProxyInternalResponse 418)).data :=
  ⟨(C8_display_contract Error.DnsTimeout 418).1,
   (C8_display_contract Error.DnsTimeout 418).2.1 rfl,
   (C8_display_contract Error.DnsTimeout 418).2.2.1,
   (C8_display_contract Error.DnsTimeout 418).2.2.2⟩

/-- C10.  Each of the three constructors only ever fails with one of
`DestinationNotFound`, `DnsError`, `ProxyInternalError`,
`ConnectionRefused`. -/
theorem C10_constructor_error_range (env : NetEnv) (host port : String)
    (ip p : Nat) (target : SocketAddr) :
    (∀ e, with_host_port env host port = .error e →
      e ∈ constructorErrorRange) ∧
    (∀ e, with_addr_port env ip p = .error e →
      e ∈ constructorErrorRange) ∧
    (∀ e, with_sock_addr env target = .error e →
      e ∈ constructorErrorRange) := by
  have hsock : ∀ t e, with_sock_addr env t = .error e →
      e ∈ constructorErrorRange := by
    intro t e h
    rcases with_sock_addr_error_mem env t e h with h1 | h1 <;>
      subst h1 <;> decide
  refine ⟨?_, fun e h => hsock _ e h, fun e h => hsock _ e h⟩
  intro e h
  unfold with_host_port at h
  split at h
  · injection h with h2
    subst h2
    decide
  · split at h
    · injection h with h2
      have h3 : e = Error.ProxyInternalError := h2.symm
      subst h3
      decide
    · split at h
      · injection h with h2
        subst h2
        decide
      · exact hsock _ e h

/-- C10 exercising all three constructors: a no-address resolution, a
refused connect, a failed bind. -/
theorem C10_constructor_error_range_witness :
    Error.DnsError ∈ constructorErrorRange ∧
    Error.ConnectionRefused ∈ constructorErrorRange ∧
    Error.ProxyInternalError ∈ constructorErrorRange :=
  ⟨(C10_constructor_error_range envResolveEmpty "example.com" "443"
      9 80 addrA).1 Error.DnsError rfl,
   (C10_constructor_error_range envWouldBlock "example.com" "443"
      9 80 addrA).2.1 Error.ConnectionRefused rfl,
   (C10_constructor_error_range envBindFails "example.com" "443"
      9 80 addrA).2.2 Error.ProxyInternalError rfl⟩

end ProxyCore
